import Mathlib

/-!
Shallow embedding of `tools/cabana/mainwin.cc` (the cabana main-window
controller of openpilot).  GUI side effects are modelled as explicit effect
traces, Qt containers as Lean lists, and the undo stack / settings as plain
structures.  Every definition mirrors the corresponding C++ function; external
collaborators (file system, dialogs, the DBC manager) enter as parameters.
-/

namespace Cabana

/-- Modelled from the spec: `AUTO_SAVE_EXTENSION` is declared in a header that
is not part of the provided source; the spec states the on-disk convention
`<name>.dbc` / `<name>.dbc.autosave`, so the extension appended to a DBC file
name is `".autosave"`. -/
def AUTO_SAVE_EXTENSION : String := ".autosave"

/-- Observable side effects performed by the main-window handlers. -/
inductive Effect where
  | questionDialog (title text : String)
  | warningDialog (title text detail : String)
  | infoDialog (title text : String)
  | statusMessage (text : String)
  | resetClean
  | dbcCloseAll
  | dbcOpen (path : String)
  | recentFilesUpdate (fn : String)
  | loadSaveMenusUpdate
  | centerClear
  | chartsRemoveAll
  | closeMainWindow
deriving DecidableEq

/-- Environment of `MainWindow::loadFile`: answers of the file system, of the
user, and of `dbc()->open`. -/
structure LoadEnv where
  fileExists : String → Bool
  userLoadsAutoSave : Bool
  openSucceeds : String → Bool
  openError : String

/-- The path handed to `dbc()->open` by `loadFile`: the auto-save shadow copy
when it exists and the user accepted the prompt, otherwise `fn` itself. -/
def loadedPath (env : LoadEnv) (fn : String) : String :=
  if env.fileExists (fn ++ AUTO_SAVE_EXTENSION) && env.userLoadsAutoSave then
    fn ++ AUTO_SAVE_EXTENSION
  else fn

/-- Effect trace of `MainWindow::loadFile(fn, s, close_all)`. -/
def loadFile (env : LoadEnv) (fn : String) (close_all : Bool) : List Effect :=
  if fn = "" then []
  else
    let askEffects :=
      if env.fileExists (fn ++ AUTO_SAVE_EXTENSION) then
        [Effect.questionDialog "Auto saved DBC found"
          "Auto saved DBC file from previous session found. Do you want to load it instead?"]
      else []
    let resetEffects :=
      if env.fileExists (fn ++ AUTO_SAVE_EXTENSION) && env.userLoadsAutoSave then
        [Effect.resetClean]
      else []
    let closeEffects := if close_all then [Effect.dbcCloseAll] else []
    let resultEffects :=
      if env.openSucceeds (loadedPath env fn) then
        [Effect.recentFilesUpdate fn,
         Effect.statusMessage ("DBC File " ++ fn ++ " loaded")]
      else
        [Effect.warningDialog "Failed to load DBC file"
          ("Failed to parse DBC file " ++ fn) env.openError]
    askEffects ++ resetEffects ++ closeEffects ++
      [Effect.dbcOpen (loadedPath env fn)] ++ resultEffects ++
      [Effect.loadSaveMenusUpdate]

/-- Effect trace of `MainWindow::openRoute`: `execAccepted` is the result of
`dlg.exec()`, `failedToLoad` of `dlg.failedToLoad()`. -/
def openRoute (execAccepted failedToLoad : Bool) (routeName : String) : List Effect :=
  if execAccepted then
    [Effect.centerClear, Effect.chartsRemoveAll,
     Effect.statusMessage ("Route " ++ routeName ++ " loaded")]
  else if failedToLoad then [Effect.closeMainWindow]
  else []

/-- An effect that merely displays something to the user (dialog box or
status-bar message). -/
def isDialogEffect : Effect → Bool
  | .questionDialog _ _ => true
  | .warningDialog _ _ _ => true
  | .infoDialog _ _ => true
  | .statusMessage _ => true
  | _ => false

/-- An effect that invokes `dbc()->open`. -/
def isOpenEffect : Effect → Bool
  | .dbcOpen _ => true
  | _ => false

/-- C1 counterexample: the failure-handling branch of `openRoute` (dialog
rejected and `failedToLoad()` true) does not merely show a message and abort:
its sole effect is closing the main window, which is not a user-facing
display. -/
theorem C1_counterexample :
    openRoute false true "R" = [Effect.closeMainWindow] ∧
    isDialogEffect Effect.closeMainWindow = false := by
  constructor <;> rfl

/-- C1 amended: when `dbc()->open` fails in `loadFile`, a warning box carrying
the parse error is shown, no recovery occurs (no recent-files update, no
success message, no second open attempt beyond the single failed one), and the
only remaining action is the menu refresh; but when the `OpenRouteDialog`
fails to load, `openRoute` closes the main window rather than only showing a
message. -/
theorem C1_failure_handling (env : LoadEnv) (fn : String) (close_all : Bool)
    (routeName : String) (hfn : fn ≠ "")
    (hfail : env.openSucceeds (loadedPath env fn) = false) :
    Effect.warningDialog "Failed to load DBC file"
        ("Failed to parse DBC file " ++ fn) env.openError ∈ loadFile env fn close_all ∧
    (∀ g, Effect.recentFilesUpdate g ∉ loadFile env fn close_all) ∧
    (∀ t, Effect.statusMessage t ∉ loadFile env fn close_all) ∧
    ((loadFile env fn close_all).filter isOpenEffect).length = 1 ∧
    openRoute false true routeName = [Effect.closeMainWindow] := by
  refine ⟨?_, ?_, ?_, ?_, rfl⟩ <;>
    cases hfe : env.fileExists (fn ++ AUTO_SAVE_EXTENSION) <;>
      cases hul : env.userLoadsAutoSave <;>
        cases close_all <;>
          simp_all [loadFile, loadedPath, isOpenEffect, List.filter]

/-- C1 witness: instantiation of the amended failure-handling theorem on a
concrete environment whose `dbc()->open` always fails. -/
theorem C1_failure_handling_witness :
    Effect.warningDialog "Failed to load DBC file"
        ("Failed to parse DBC file " ++ "a.dbc") "bad dbc" ∈
      loadFile ⟨fun _ => true, true, fun _ => false, "bad dbc"⟩ "a.dbc" true ∧
    (∀ g, Effect.recentFilesUpdate g ∉
      loadFile ⟨fun _ => true, true, fun _ => false, "bad dbc"⟩ "a.dbc" true) ∧
    (∀ t, Effect.statusMessage t ∉
      loadFile ⟨fun _ => true, true, fun _ => false, "bad dbc"⟩ "a.dbc" true) ∧
    ((loadFile ⟨fun _ => true, true, fun _ => false, "bad dbc"⟩ "a.dbc" true).filter
      isOpenEffect).length = 1 ∧
    openRoute false true "R" = [Effect.closeMainWindow] :=
  C1_failure_handling ⟨fun _ => true, true, fun _ => false, "bad dbc"⟩ "a.dbc" true "R"
    (by decide) rfl

/-- C3: `loadFile` checks for the auto-save copy at exactly
`fn ++ AUTO_SAVE_EXTENSION`; when it exists and the user accepts the prompt,
the file actually opened is `fn ++ AUTO_SAVE_EXTENSION` (it is the unique
path handed to `dbc()->open`) and the undo stack's clean state is reset. -/
theorem C3_autosave_convention (env : LoadEnv) (fn : String) (close_all : Bool)
    (hex : env.fileExists (fn ++ AUTO_SAVE_EXTENSION) = true)
    (hacc : env.userLoadsAutoSave = true) (hfn : fn ≠ "") :
    Effect.questionDialog "Auto saved DBC found"
        "Auto saved DBC file from previous session found. Do you want to load it instead?" ∈
      loadFile env fn close_all ∧
    Effect.dbcOpen (fn ++ AUTO_SAVE_EXTENSION) ∈ loadFile env fn close_all ∧
    Effect.resetClean ∈ loadFile env fn close_all ∧
    (∀ p, Effect.dbcOpen p ∈ loadFile env fn close_all → p = fn ++ AUTO_SAVE_EXTENSION) ∧
    AUTO_SAVE_EXTENSION = ".autosave" := by
  refine ⟨?_, ?_, ?_, ?_, rfl⟩ <;>
    cases hop : env.openSucceeds (loadedPath env fn) <;>
      cases close_all <;>
        simp_all [loadFile, loadedPath]

/-- C3 witness: instantiation of the auto-save convention theorem on a
concrete environment in which the auto-save copy exists and is accepted. -/
theorem C3_autosave_convention_witness :
    Effect.questionDialog "Auto saved DBC found"
        "Auto saved DBC file from previous session found. Do you want to load it instead?" ∈
      loadFile ⟨fun _ => true, true, fun _ => true, ""⟩ "a.dbc" true ∧
    Effect.dbcOpen ("a.dbc" ++ AUTO_SAVE_EXTENSION) ∈
      loadFile ⟨fun _ => true, true, fun _ => true, ""⟩ "a.dbc" true ∧
    Effect.resetClean ∈ loadFile ⟨fun _ => true, true, fun _ => true, ""⟩ "a.dbc" true ∧
    (∀ p, Effect.dbcOpen p ∈ loadFile ⟨fun _ => true, true, fun _ => true, ""⟩ "a.dbc" true →
      p = "a.dbc" ++ AUTO_SAVE_EXTENSION) ∧
    AUTO_SAVE_EXTENSION = ".autosave" :=
  C3_autosave_convention ⟨fun _ => true, true, fun _ => true, ""⟩ "a.dbc" true
    rfl rfl (by decide)

/-- The persistent settings touched by `MainWindow::updateRecentFiles`. -/
structure Settings where
  recent_files : List String
  last_dir : String
deriving DecidableEq

/-- The `while (settings.recent_files.size() > MAX_RECENT_FILES) removeLast()`
loop of `updateRecentFiles`. -/
def trimRecent (max : Nat) (l : List String) : List String :=
  if max < l.length then trimRecent max l.dropLast else l
termination_by l.length
decreasing_by simp [List.length_dropLast]; omega

/-- `MainWindow::updateRecentFiles(fn)`: remove every occurrence of `fn`,
prepend `fn`, trim to `maxRecent` (`MAX_RECENT_FILES`, declared in a header
outside the provided source, hence a parameter), and record the absolute
directory of `fn` (computed by Qt, hence the abstract `absPath`). -/
def updateRecentFiles (absPath : String → String) (maxRecent : Nat)
    (s : Settings) (fn : String) : Settings :=
  let files := s.recent_files.filter (fun f => f != fn)
  let files := fn :: files
  let files := trimRecent maxRecent files
  { recent_files := files, last_dir := absPath fn }

theorem trimRecent_eq_take (max : Nat) (l : List String) :
    trimRecent max l = l.take max := by
  rw [trimRecent]
  split
  · rw [trimRecent_eq_take max l.dropLast, List.dropLast_eq_take, List.take_take]
    congr 1
    omega
  · rw [List.take_of_length_le (by omega)]
termination_by l.length
decreasing_by simp [List.length_dropLast]; omega

/-- C2: after `updateRecentFiles fn` the recent-files list starts with `fn`,
contains `fn` exactly once, has length at most `MAX_RECENT_FILES`, the other
elements keep their previous relative order (the tail is a sublist of the old
list), and `last_dir` is the absolute directory path of `fn`. -/
theorem C2_updateRecentFiles_invariant (absPath : String → String)
    (maxRecent : Nat) (s : Settings) (fn : String) (hmax : 1 ≤ maxRecent) :
    (updateRecentFiles absPath maxRecent s fn).recent_files.head? = some fn ∧
    (updateRecentFiles absPath maxRecent s fn).recent_files.count fn = 1 ∧
    (updateRecentFiles absPath maxRecent s fn).recent_files.length ≤ maxRecent ∧
    (updateRecentFiles absPath maxRecent s fn).recent_files.tail.Sublist s.recent_files ∧
    (updateRecentFiles absPath maxRecent s fn).last_dir = absPath fn := by
  obtain ⟨k, rfl⟩ : ∃ k, maxRecent = k + 1 := ⟨maxRecent - 1, by omega⟩
  have hfiles : (updateRecentFiles absPath (k + 1) s fn).recent_files =
      fn :: (s.recent_files.filter (fun f => f != fn)).take k := by
    simp [updateRecentFiles, trimRecent_eq_take]
  refine ⟨?_, ?_, ?_, ?_, rfl⟩
  · rw [hfiles]; rfl
  · rw [hfiles, List.count_cons_self]
    have hzero : ((s.recent_files.filter (fun f => f != fn)).take k).count fn = 0 := by
      rw [List.count_eq_zero]
      intro hmem
      have hmem2 : fn ∈ s.recent_files.filter (fun f => f != fn) :=
        (List.take_sublist _ _).mem hmem
      have := List.of_mem_filter hmem2
      simp at this
    omega
  · rw [hfiles]
    simp only [List.length_cons, List.length_take]
    omega
  · rw [hfiles]
    simp only [List.tail_cons]
    exact (List.take_sublist _ _).trans (List.filter_sublist _)

/-- C2 witness: instantiation of the recent-files invariant at a concrete
settings state with a duplicate entry. -/
theorem C2_updateRecentFiles_invariant_witness :
    (updateRecentFiles (fun _ => "/d") 15 ⟨["a", "b", "b"], ""⟩ "b").recent_files.head? =
      some "b" ∧
    (updateRecentFiles (fun _ => "/d") 15 ⟨["a", "b", "b"], ""⟩ "b").recent_files.count "b" = 1 ∧
    (updateRecentFiles (fun _ => "/d") 15 ⟨["a", "b", "b"], ""⟩ "b").recent_files.length ≤ 15 ∧
    (updateRecentFiles (fun _ => "/d") 15 ⟨["a", "b", "b"], ""⟩ "b").recent_files.tail.Sublist
      ["a", "b", "b"] ∧
    (updateRecentFiles (fun _ => "/d") 15 ⟨["a", "b", "b"], ""⟩ "b").last_dir =
      (fun _ => "/d") "b" :=
  C2_updateRecentFiles_invariant (fun _ => "/d") 15 ⟨["a", "b", "b"], ""⟩ "b" (by omega)

/-- Outcome of `MainWindow::loadDBCFromFingerprint`. -/
inductive FingerprintAction where
  | keepExisting
  | loadOpendbc (name : String)
  | createNewFile
deriving DecidableEq

/-- Key lookup in the `car_fingerprint_to_dbc.json` document
(`fingerprint_to_dbc[fingerprint]`, `QJsonValue::Undefined` becomes `none`). -/
def lookupDBCName : List (String × String) → String → Option String
  | [], _ => none
  | (k, v) :: rest, fp => if k = fp then some v else lookupDBCName rest fp

/-- `MainWindow::loadDBCFromFingerprint`: keep an already loaded DBC
(`dbc()->msgCount()` nonzero), otherwise look the car fingerprint up in the
JSON table and load the matching opendbc file, otherwise fall back to
`newFile()`. -/
def loadDBCFromFingerprint (msgCount : Nat) (table : List (String × String))
    (fingerprint : String) : FingerprintAction :=
  if msgCount ≠ 0 then .keepExisting
  else if fingerprint ≠ "" then
    match lookupDBCName table fingerprint with
    | some name => .loadOpendbc name
    | none => .createNewFile
  else .createNewFile

/-- C4: `loadDBCFromFingerprint` is a fingerprint-to-DBC lookup: with a DBC
already loaded it does nothing; with a non-empty fingerprint that is a key of
the table it loads the corresponding opendbc DBC; in every other case it
creates a new empty DBC file. -/
theorem C4_loadDBCFromFingerprint_lookup (msgCount : Nat)
    (table : List (String × String)) (fingerprint : String) :
    (0 < msgCount → loadDBCFromFingerprint msgCount table fingerprint = .keepExisting) ∧
    (∀ name, msgCount = 0 → fingerprint ≠ "" →
      lookupDBCName table fingerprint = some name →
      loadDBCFromFingerprint msgCount table fingerprint = .loadOpendbc name) ∧
    (msgCount = 0 → fingerprint ≠ "" → lookupDBCName table fingerprint = none →
      loadDBCFromFingerprint msgCount table fingerprint = .createNewFile) ∧
    (msgCount = 0 → fingerprint = "" →
      loadDBCFromFingerprint msgCount table fingerprint = .createNewFile) := by
  refine ⟨?_, ?_, ?_, ?_⟩
  · intro h
    simp [loadDBCFromFingerprint, Nat.pos_iff_ne_zero.mp h]
  · intro name h0 hfp hlook
    simp [loadDBCFromFingerprint, h0, hfp, hlook]
  · intro h0 hfp hlook
    simp [loadDBCFromFingerprint, h0, hfp, hlook]
  · intro h0 hfp
    simp [loadDBCFromFingerprint, h0, hfp]

/-- C4 witness: a concrete table lookup that hits its key. -/
theorem C4_loadDBCFromFingerprint_lookup_witness :
    loadDBCFromFingerprint 0 [("TOYOTA COROLLA", "toyota_corolla")] "TOYOTA COROLLA" =
      .loadOpendbc "toyota_corolla" :=
  (C4_loadDBCFromFingerprint_lookup 0 [("TOYOTA COROLLA", "toyota_corolla")]
    "TOYOTA COROLLA").2.1 "toyota_corolla" rfl (by decide) (by decide)

/-- One open DBC file of the `DBCManager` (`dbc()->dbc_files` entry). -/
structure DBCFile where
  filename : String
deriving DecidableEq

/-- The per-file loop of `MainWindow::autoSave`: the filenames whose
`dbc_file->autoSave()` is invoked, in iteration order. -/
def writeAutoSaves : List (Nat × DBCFile) → List String
  | [] => []
  | (_, f) :: rest =>
    if f.filename != "" then f.filename :: writeAutoSaves rest
    else writeAutoSaves rest

/-- `MainWindow::autoSave`: auto-save every open DBC file with a non-empty
filename, but only when the undo stack is not clean. -/
def autoSave (clean : Bool) (files : List (Nat × DBCFile)) : List String :=
  if !clean then writeAutoSaves files else []

/-- UI-state fields of `MainWindow` used by the undo-stack slots. -/
structure MainState where
  windowModified : Bool
  prev_undostack_index : Nat
  prev_undostack_count : Nat
deriving DecidableEq

/-- `MainWindow::undoStackCleanChanged(clean)`: reset the recorded undo-stack
cursor on becoming clean, and mirror `!clean` into the window-modified flag. -/
def undoStackCleanChanged (st : MainState) (clean : Bool) : MainState :=
  let st1 :=
    if clean then { st with prev_undostack_index := 0, prev_undostack_count := 0 }
    else st
  { st1 with windowModified := !clean }

/-- C5: `autoSave` writes auto-save copies only when the undo stack is not
clean, and then exactly for the open DBC files whose filename is non-empty
(in order); when the stack is clean it writes nothing.  `undoStackCleanChanged`
sets the window-modified flag to true exactly when the stack is not clean and
zeroes the recorded previous index and count when it becomes clean. -/
theorem C5_autosave_clean_bookkeeping :
    (∀ files, autoSave true files = []) ∧
    (∀ files, autoSave false files =
      ((files.map Prod.snd).filter (fun f => f.filename != "")).map DBCFile.filename) ∧
    (∀ st clean, (undoStackCleanChanged st clean).windowModified = !clean) ∧
    (∀ st, (undoStackCleanChanged st true).prev_undostack_index = 0 ∧
      (undoStackCleanChanged st true).prev_undostack_count = 0) := by
  refine ⟨fun files => rfl, fun files => ?_, fun st clean => ?_, fun st => ⟨rfl, rfl⟩⟩
  · induction files with
    | nil => rfl
    | cons p rest ih =>
      obtain ⟨s, f⟩ := p
      by_cases h : f.filename = ""
      · simp [autoSave, writeAutoSaves, h] at ih ⊢
        exact ih
      · simp [autoSave, writeAutoSaves, h] at ih ⊢
        exact ih
  · cases clean <;> rfl

/-- The text of the undo command at (C++ `int`) index `i`:
`QUndoStack::text` returns the empty string outside the valid range. -/
def stackText (cmds : List String) (i : Int) : String :=
  if h : 0 ≤ i ∧ i < (cmds.length : Int) then cmds.get ⟨i.toNat, by omega⟩ else ""

/-- `MainWindow::undoStackIndexChanged(index)`: compute the status-bar
message from the new index, the command count and the previously recorded
index/count, record the new index and count, and attempt an auto-save.
Returns (new state, status message, auto-saved filenames). -/
def undoStackIndexChanged (cmds : List String) (clean : Bool)
    (files : List (Nat × DBCFile)) (st : MainState) (index : Nat) :
    MainState × String × List String :=
  let count := cmds.length
  let msg :=
    if index = count then
      (if count = st.prev_undostack_count then "Redo " else "") ++
        stackText cmds ((index : Int) - 1)
    else if index < st.prev_undostack_index then
      "Undo " ++ stackText cmds (index : Int)
    else if st.prev_undostack_index < index then
      "Redo " ++ stackText cmds ((index : Int) - 1)
    else ""
  ({ st with prev_undostack_index := index, prev_undostack_count := count },
   msg, autoSave clean files)

/-- C6: the status message of `undoStackIndexChanged` is, for a new index
equal to the command count, the text of command `index - 1` prefixed with
`"Redo "` exactly when the count equals the previously recorded count; for a
new index strictly below the count and below the previous index it is
`"Undo "` plus the text of command `index`; for a new index strictly below
the count and above the previous index it is `"Redo "` plus the text of
command `index - 1`; and the recorded previous index and count are updated to
the new values while an auto-save is attempted. -/
theorem C6_undo_redo_text (cmds : List String) (clean : Bool)
    (files : List (Nat × DBCFile)) (st : MainState) (index : Nat) :
    (index = cmds.length →
      (undoStackIndexChanged cmds clean files st index).2.1 =
        (if cmds.length = st.prev_undostack_count then "Redo " else "") ++
          stackText cmds ((index : Int) - 1)) ∧
    (index < cmds.length → index < st.prev_undostack_index →
      (undoStackIndexChanged cmds clean files st index).2.1 =
        "Undo " ++ stackText cmds (index : Int)) ∧
    (index < cmds.length → st.prev_undostack_index < index →
      (undoStackIndexChanged cmds clean files st index).2.1 =
        "Redo " ++ stackText cmds ((index : Int) - 1)) ∧
    (undoStackIndexChanged cmds clean files st index).1.prev_undostack_index = index ∧
    (undoStackIndexChanged cmds clean files st index).1.prev_undostack_count = cmds.length ∧
    (undoStackIndexChanged cmds clean files st index).2.2 = autoSave clean files := by
  refine ⟨?_, ?_, ?_, rfl, rfl, rfl⟩
  · intro h
    simp [undoStackIndexChanged, h]
  · intro hcount hprev
    have hne : index ≠ cmds.length := Nat.ne_of_lt hcount
    simp [undoStackIndexChanged, hne, hprev]
  · intro hcount hprev
    have hne : index ≠ cmds.length := Nat.ne_of_lt hcount
    have hnlt : ¬ index < st.prev_undostack_index := by omega
    simp [undoStackIndexChanged, hne, hnlt, hprev]

/-- C6 witness: an undo step on a one-command stack produces the
`"Undo "`-prefixed text of that command. -/
theorem C6_undo_redo_text_witness :
    (undoStackIndexChanged ["edit signal"] false [] ⟨true, 1, 1⟩ 0).2.1 =
      "Undo " ++ stackText ["edit signal"] (0 : Int) :=
  (C6_undo_redo_text ["edit signal"] false [] ⟨true, 1, 1⟩ 0).2.1
    (by decide) (by decide)

/-- Status-bar progress bar state.  The floating-point percentage handed to
`setValue` is not modelled; only visibility and format are. -/
structure ProgressBar where
  visible : Bool
  format : String
deriving DecidableEq

/-- `MainWindow::updateDownloadProgress(cur, total, success)`: show the bar
with a download format while a successful transfer is in progress, hide it
otherwise. -/
def updateDownloadProgress (fmtDataSize : Nat → String) (pb : ProgressBar)
    (cur total : Nat) (success : Bool) : ProgressBar :=
  if success && decide (cur < total) then
    { visible := true,
      format := "Downloading %p% (" ++ fmtDataSize total ++ ")" }
  else
    { pb with visible := false }

/-- C7: after `updateDownloadProgress(cur, total, success)` the progress bar
is visible if and only if `success` is true and `cur` is strictly less than
`total`; on failure or completion it is hidden. -/
theorem C7_progress_bar_visibility (fmtDataSize : Nat → String)
    (pb : ProgressBar) (cur total : Nat) (success : Bool) :
    (updateDownloadProgress fmtDataSize pb cur total success).visible = true ↔
      success = true ∧ cur < total := by
  cases success <;> by_cases h : cur < total <;>
    simp [updateDownloadProgress, h]

/-- The undo stack: its command list and clean flag. -/
structure UndoStackM where
  commands : List String
  clean : Bool
deriving DecidableEq

/-- Effects of `MainWindow::saveFile`. -/
inductive SaveEffect where
  | saveExisting (fn : String)
  | saveAsNew (fn : String)
  | recentUpdate (fn : String)
  | statusMsg (text : String)
deriving DecidableEq

/-- The per-file loop of `MainWindow::saveFile`: files with a filename are
saved in place, the others go through a save dialog (`chooseName k` is the
name entered at the `k`-th dialog, `""` meaning the dialog was cancelled). -/
def saveFileEffects : List (Nat × DBCFile) → (Nat → String) → Nat → List SaveEffect
  | [], _, _ => []
  | (_, f) :: rest, chooseName, k =>
    if f.filename != "" then
      .saveExisting f.filename :: .recentUpdate f.filename ::
        saveFileEffects rest chooseName (k + 1)
    else if chooseName k != "" then
      .saveAsNew (chooseName k) :: .recentUpdate (chooseName k) ::
        saveFileEffects rest chooseName (k + 1)
    else saveFileEffects rest chooseName (k + 1)

/-- `QUndoStack::setClean`. -/
def setClean (s : UndoStackM) : UndoStackM := { s with clean := true }

/-- `MainWindow::saveFile`: save every open DBC file, then unconditionally
mark the undo stack clean and show a status message. -/
def saveFile (files : List (Nat × DBCFile)) (chooseName : Nat → String)
    (stack : UndoStackM) : List SaveEffect × UndoStackM :=
  (saveFileEffects files chooseName 0 ++ [.statusMsg "File saved"], setClean stack)

/-- User answer to the unsaved-changes message box. -/
inductive MsgBoxChoice where
  | ok
  | cancel
deriving DecidableEq

/-- Loop state of `MainWindow::remindSaveChanges`: the undo stack, the
`discard_changes` flag, and how many loop iterations have run. -/
structure RemindState where
  stack : UndoStackM
  discard_changes : Bool
  iterations : Nat
deriving DecidableEq

/-- The `while (!isClean() && !discard_changes)` loop of `remindSaveChanges`,
with explicit fuel; `resp k` is the user's answer at the `k`-th prompt. -/
def remindLoop (fuel : Nat) (files : List (Nat × DBCFile))
    (chooseName : Nat → String) (resp : Nat → MsgBoxChoice)
    (s : RemindState) : RemindState :=
  match fuel with
  | 0 => s
  | fuel + 1 =>
    if !s.stack.clean && !s.discard_changes then
      match resp s.iterations with
      | .ok =>
        remindLoop fuel files chooseName resp
          ⟨(saveFile files chooseName s.stack).2, s.discard_changes, s.iterations + 1⟩
      | .cancel =>
        remindLoop fuel files chooseName resp ⟨s.stack, true, s.iterations + 1⟩
    else s

/-- `QUndoStack::clear`: empty command list, clean stack. -/
def clearedStack : UndoStackM := ⟨[], true⟩

/-- `MainWindow::remindSaveChanges`: run the prompt loop, then clear the undo
stack. -/
def remindSaveChanges (fuel : Nat) (files : List (Nat × DBCFile))
    (chooseName : Nat → String) (resp : Nat → MsgBoxChoice)
    (stack : UndoStackM) : RemindState :=
  let s := remindLoop fuel files chooseName resp ⟨stack, false, 0⟩
  { s with stack := clearedStack }

theorem remindLoop_of_guard_false (fuel : Nat) (files : List (Nat × DBCFile))
    (chooseName : Nat → String) (resp : Nat → MsgBoxChoice) (s : RemindState)
    (h : (!s.stack.clean && !s.discard_changes) = false) :
    remindLoop fuel files chooseName resp s = s := by
  cases fuel <;> simp [remindLoop, h]

/-- C8: `remindSaveChanges` terminates after at most one prompt iteration:
the loop result is independent of any fuel bound of at least one (choosing Ok
saves, and `saveFile` unconditionally marks the stack clean; choosing Cancel
sets `discard_changes`), and on return the undo stack is always cleared,
regardless of the user's choices. -/
theorem C8_remindSaveChanges_terminates (fuel : Nat)
    (files : List (Nat × DBCFile)) (chooseName : Nat → String)
    (resp : Nat → MsgBoxChoice) (stack : UndoStackM) (hfuel : 1 ≤ fuel) :
    remindLoop fuel files chooseName resp ⟨stack, false, 0⟩ =
      remindLoop 1 files chooseName resp ⟨stack, false, 0⟩ ∧
    (remindLoop fuel files chooseName resp ⟨stack, false, 0⟩).iterations ≤ 1 ∧
    (∀ st2, (saveFile files chooseName st2).2.clean = true) ∧
    (remindSaveChanges fuel files chooseName resp stack).stack = clearedStack := by
  obtain ⟨f, rfl⟩ : ∃ f, fuel = f + 1 := ⟨fuel - 1, by omega⟩
  have step : ∀ g, remindLoop (g + 1) files chooseName resp ⟨stack, false, 0⟩ =
      if stack.clean then ⟨stack, false, 0⟩
      else match resp 0 with
        | .ok => ⟨(saveFile files chooseName stack).2, false, 1⟩
        | .cancel => ⟨stack, true, 1⟩ := by
    intro g
    by_cases hc : stack.clean = true
    · rw [remindLoop_of_guard_false _ _ _ _ _ (by simp [hc]), if_pos hc]
    · have hc2 : stack.clean = false := by revert hc; cases stack.clean <;> simp
      rw [if_neg hc]
      cases hresp : resp 0 <;>
        simp [remindLoop, hc2, hresp, remindLoop_of_guard_false, saveFile, setClean]
  refine ⟨?_, ?_, fun st2 => rfl, by simp [remindSaveChanges]⟩
  · rw [step f, step 0]
  · rw [step f]
    by_cases hc : stack.clean = true
    · simp [hc]
    · cases hresp : resp 0 <;> simp [hc, hresp]

/-- C8 witness: a dirty stack with the user cancelling; one iteration, and the
stack comes back cleared. -/
theorem C8_remindSaveChanges_terminates_witness :
    remindLoop 7 [] (fun _ => "") (fun _ => .cancel) ⟨⟨["c"], false⟩, false, 0⟩ =
      remindLoop 1 [] (fun _ => "") (fun _ => .cancel) ⟨⟨["c"], false⟩, false, 0⟩ ∧
    (remindLoop 7 [] (fun _ => "") (fun _ => .cancel) ⟨⟨["c"], false⟩, false, 0⟩).iterations ≤ 1 ∧
    (∀ st2, (saveFile [] (fun _ => "") st2).2.clean = true) ∧
    (remindSaveChanges 7 [] (fun _ => "") (fun _ => .cancel) ⟨["c"], false⟩).stack =
      clearedStack :=
  C8_remindSaveChanges_terminates 7 [] (fun _ => "") (fun _ => .cancel)
    ⟨["c"], false⟩ (by omega)

/-- Dialog shown by `MainWindow::loadDBCFromClipboard`. -/
inductive ClipResult where
  | successDialog (title text : String)
  | failureDialog (title text : String) (detail : Option String)
deriving DecidableEq

/-- `MainWindow::loadDBCFromClipboard`: open the clipboard text as a DBC
(`openRet` is the result of `dbc()->open`, `msgCount` of `dbc()->msgCount()`
afterwards, `error` the parse error) and report the outcome to the user. -/
def loadDBCFromClipboard (openRet : Bool) (msgCount : Nat) (error : String) :
    ClipResult :=
  if openRet && decide (0 < msgCount) then
    .successDialog "Load From Clipboard" "DBC Successfully Loaded!"
  else
    .failureDialog "Failed to load DBC from clipboard"
      "Make sure that you paste the text with correct format."
      (if error != "" then some error else none)

/-- Whether a clipboard-load outcome is the success dialog. -/
def isSuccessDialog : ClipResult → Bool
  | .successDialog _ _ => true
  | _ => false

/-- C9: the clipboard load reports success if and only if `dbc()->open`
succeeded and at least one message was loaded; text that parses but defines
zero messages gets the failure dialog. -/
theorem C9_clipboard_success_iff (openRet : Bool) (msgCount : Nat) (error : String) :
    (isSuccessDialog (loadDBCFromClipboard openRet msgCount error) = true ↔
      openRet = true ∧ 0 < msgCount) ∧
    loadDBCFromClipboard true 0 error =
      .failureDialog "Failed to load DBC from clipboard"
        "Make sure that you paste the text with correct format."
        (if error != "" then some error else none) := by
  constructor
  · cases openRet <;> by_cases h : 0 < msgCount <;>
      simp [loadDBCFromClipboard, isSuccessDialog, h]
  · rfl

/-- Insertion into a sorted list, auxiliary to the `std::sort` model. -/
def insertSorted (x : Nat) : List Nat → List Nat
  | [] => [x]
  | y :: ys => if x ≤ y then x :: y :: ys else y :: insertSorted x ys

/-- Model of `std::sort` on the bus-source list (ascending insertion sort). -/
def sortSources : List Nat → List Nat
  | [] => []
  | x :: xs => insertSorted x (sortSources xs)

/-- The per-source loop of `MainWindow::updateLoadSaveMenus`: sources of 64
and above (sent and blocked buses) are skipped, every other source becomes a
menu action whose data is the source value. -/
def busActionData : List Nat → List Nat
  | [] => []
  | s :: rest => if 64 ≤ s then busActionData rest else s :: busActionData rest

/-- The data values of the actions created by
`MainWindow::updateLoadSaveMenus` for the current bus sources. -/
def updateLoadSaveMenusActions (sources : List Nat) : List Nat :=
  busActionData (sortSources sources)

/-- `MainWindow::openFileForSource` on an action with data `data`: the
`assert(source < 64)` is modelled by `none` on violation; on success the
file is loaded for sources `{data, data + 128, data + 192}`. -/
def openFileForSource (data : Nat) : Option (List Nat) :=
  if data < 64 then some [data, data + 128, data + 192] else none

theorem busActionData_lt (l : List Nat) : ∀ d ∈ busActionData l, d < 64 := by
  induction l with
  | nil => intro d hd; cases hd
  | cons s rest ih =>
    intro d hd
    by_cases h : 64 ≤ s
    · rw [busActionData, if_pos h] at hd
      exact ih d hd
    · rw [busActionData, if_neg h] at hd
      rcases List.mem_cons.mp hd with rfl | hmem
      · omega
      · exact ih d hmem

/-- C10: every action created by `updateLoadSaveMenus` stores a source value
strictly below 64, so the `assert(source < 64)` in `openFileForSource` holds
for every action that can trigger it and the load proceeds. -/
theorem C10_source_assert_holds (sources : List Nat) :
    ∀ d ∈ updateLoadSaveMenusActions sources,
      (openFileForSource d).isSome = true := by
  intro d hd
  have hlt : d < 64 := busActionData_lt _ d hd
  simp [openFileForSource, hlt]

/-- C10 witness: on sources `[2, 70, 1]` the created actions carry data
`1` among others, and the assertion holds there. -/
theorem C10_source_assert_holds_witness :
    1 ∈ updateLoadSaveMenusActions [2, 70, 1] ∧
    (openFileForSource 1).isSome = true :=
  ⟨by decide, C10_source_assert_holds [2, 70, 1] 1 (by decide)⟩

end Cabana
